import Mathlib

/-!
Shallow embedding of the Lytiva Home Assistant integration
(`custom_components/lytiva/`): the MQTT discovery registry, the central
status router, and the per-kind device shadows, translated from the
Python source.

JSON documents are modelled two levels deep: a document is an object
whose values are scalars or sub-objects of scalars.  This covers every
payload shape the integration reads (status messages carry an `address`
plus a kind-named sub-object of scalar fields; discovery payloads are
flat apart from the `device` block).

Python behaviours are reproduced where observable:
`dict.get` returns `None` both for a missing key and for a stored JSON
`null`; `or`-chains select the first truthy operand; `str()` of the
scalar types gives "None" / "True" / "False" / the decimal numeral /
the string itself; `int()` truncates toward zero and parses integer
numerals from strings; `round()` rounds half to even.  Numeric payload
fields are modelled as integers; the float expressions
`int(brightness / 255 * 100)` and `round(percentage / 20)` used by the
source agree with exact rational arithmetic on the integer domains
exercised here (0..255 and 0..100), because the exact values are at
least 1/51 resp. 1/20 away from the nearest rounding boundary except
where the quotient is exactly representable.
-/

/-- JSON scalar values (null, booleans, integers, strings). -/
inductive JScalar where
  | jnull : JScalar
  | jbool : Bool → JScalar
  | jint : Int → JScalar
  | jstr : String → JScalar
deriving DecidableEq

/-- JSON value one level below the top: a scalar or an object of scalars. -/
inductive JVal where
  | s : JScalar → JVal
  | obj : List (String × JScalar) → JVal
deriving DecidableEq

/-- A decoded JSON document (a Python dict produced by `json.loads`). -/
abbrev JDoc := List (String × JVal)

/-- Association lookup, modelling `dict.__getitem__` / the raw stored value. -/
def dictGet {κ α : Type} [BEq κ] (l : List (κ × α)) (k : κ) : Option α :=
  (l.find? (fun kv => kv.1 == k)).map (fun kv => kv.2)

/-- Key-membership test, modelling Python `k in d`. -/
def dictHas {κ α : Type} [BEq κ] (l : List (κ × α)) (k : κ) : Bool :=
  (l.find? (fun kv => kv.1 == k)).isSome

/-- Raw lookup of a top-level key (`payload[k]`), keeping JSON null. -/
def jget (d : JDoc) (k : String) : Option JVal :=
  dictGet d k

/-- Python `payload.get(k)`: a stored JSON `null` is returned as `None`,
indistinguishable from a missing key; both are `none` here. -/
def pyGet (d : JDoc) (k : String) : Option JVal :=
  match jget d k with
  | some (JVal.s JScalar.jnull) => none
  | v => v

/-- Python `sub.get(k)` on a kind sub-object (null collapses to `None`). -/
def sget (o : List (String × JScalar)) (k : String) : Option JScalar :=
  match dictGet o k with
  | some JScalar.jnull => none
  | v => v

/-- Python `sub.get(k, dflt)`: a stored null is returned as-is (it is the
stored value), only a missing key yields the default. -/
def sgetD (o : List (String × JScalar)) (k : String) (dflt : JScalar) : JScalar :=
  match dictGet o k with
  | some v => v
  | none => dflt

/-- Python truthiness of a JSON scalar. -/
def truthyS : JScalar → Bool
  | JScalar.jnull => false
  | JScalar.jbool b => b
  | JScalar.jint n => n != 0
  | JScalar.jstr s => s != ""

/-- Python truthiness of a JSON value (an empty dict is falsy). -/
def truthy : JVal → Bool
  | JVal.s v => truthyS v
  | JVal.obj l => !l.isEmpty

/-- Truthiness of a `dict.get` result (`None` is falsy). -/
def truthyOpt : Option JVal → Bool
  | some v => truthy v
  | none => false

/-- Python `a or b` over two `dict.get` results: the first operand is
returned when truthy, otherwise the second operand as-is. -/
def pyOr (a b : Option JVal) : Option JVal :=
  if truthyOpt a then a else b

/-- Python `a or b` where both operands are entity objects or `None`:
objects are always truthy, so this is just the first `some`. -/
def pyOrEnt {α : Type} (a b : Option α) : Option α :=
  match a with
  | some x => some x
  | none => b

/-- Python `str()` of a JSON scalar. -/
def pyStrS : JScalar → String
  | JScalar.jnull => "None"
  | JScalar.jbool true => "True"
  | JScalar.jbool false => "False"
  | JScalar.jint n => toString n
  | JScalar.jstr s => s

/-- Python `str()` of a JSON value.  The rendering of a dict is collapsed
to a fixed placeholder: no code path of the integration compares the
stringification of a dict against meaningful data. -/
def pyStr : JVal → String
  | JVal.s v => pyStrS v
  | JVal.obj _ => "<dict>"

/-- Python `str(x)` where `x` is a `dict.get` result (`str(None)` is
the string "None"). -/
def pyStrOpt : Option JVal → String
  | some v => pyStr v
  | none => "None"

/-- Decimal-digit run to a number, `none` when empty or non-digits occur. -/
def digitsVal : List Char → Option Nat
  | [] => none
  | cs =>
    if cs.all Char.isDigit then
      some (cs.foldl (fun acc c => acc * 10 + (c.toNat - 48)) 0)
    else none

/-- Python `str.strip()` (whitespace trimmed at both ends). -/
def pyStrip (s : String) : String :=
  ⟨((s.data.dropWhile Char.isWhitespace).reverse.dropWhile Char.isWhitespace).reverse⟩

/-- Python `int(s)` on a string: surrounding whitespace and an optional
sign, then decimal digits; anything else raises (here `none`). -/
def pyIntOfString (s : String) : Option Int :=
  match (pyStrip s).data with
  | '-' :: rest => (digitsVal rest).map (fun n => -(n : Int))
  | '+' :: rest => (digitsVal rest).map (fun n => (n : Int))
  | l => (digitsVal l).map (fun n => (n : Int))

/-- Python `int(x)` on a JSON scalar: ints pass through, bools count as
0/1, numeric strings parse, everything else raises (`none`). -/
def pyIntS : JScalar → Option Int
  | JScalar.jint n => some n
  | JScalar.jbool b => some (if b then 1 else 0)
  | JScalar.jstr s => pyIntOfString s
  | JScalar.jnull => none

/-- Numeric view used by arithmetic on payload fields (`dim * 255 / 100`):
ints and bools are numbers; strings and null raise a `TypeError` inside
the handler's `try` block (`none`). -/
def pyNumS : JScalar → Option Int
  | JScalar.jint n => some n
  | JScalar.jbool b => some (if b then 1 else 0)
  | _ => none

/-- Numeric view of a JSON value (a dict is never a number). -/
def pyNum : JVal → Option Int
  | JVal.s v => pyNumS v
  | JVal.obj _ => none

/-- Python `float(x)` restricted to the integral values this embedding
models: ints and bools convert, integer-numeral strings parse.
Fractional floats are outside the embedding's scope. -/
def pyFloatInt : JScalar → Option Int :=
  pyIntS

/-- Python `round(n / m)` for positive `m`: round half to even on the
exact rational `n / m` (ties `k + 1/2` are exactly representable as
floats, and non-ties are at least `1/m` from a boundary, so the float
computation in the source agrees with this exact version). -/
def bankersDiv (n m : Int) : Int :=
  let q := n.fdiv m
  let r := n.fmod m
  if 2 * r < m then q
  else if m < 2 * r then q + 1
  else if q % 2 = 0 then q else q + 1

/-- Leading-match test over character lists. -/
def charsLead : List Char → List Char → Bool
  | [], _ => true
  | _ :: _, [] => false
  | c :: cs, d :: ds => c == d && charsLead cs ds

/-- Infix search over character lists. -/
def charsContain (needle : List Char) : List Char → Bool
  | [] => needle.isEmpty
  | c :: cs => charsLead needle (c :: cs) || charsContain needle cs

/-- Substring test, modelling Python `needle in haystack` on strings. -/
def containsSub (haystack needle : String) : Bool :=
  charsContain needle.data haystack.data

/-!
Status router (`__init__.py`, `handle_status_message`).

The two directory indices `entities_by_address` and
`entities_by_unique_id` hold references to entity objects; the handler
only reads them and schedules `_update_from_payload` on the entity it
resolves.  Entities are modelled with the two attributes the router
reads (`address` and the `_attr_unique_id` / `unique_id` pair, collapsed
into the value the scan's `or`-chain produces) plus an abstract state.
-/

/-- An entity object as seen by the status router: `address` is
`getattr(ent, "address", None)`, `unique_id` is the first truthy of
`getattr(ent, "_attr_unique_id", None)` and `getattr(ent, "unique_id",
None)`, and `state` abstracts the kind-specific mutable fields. -/
structure Entity (σ : Type) where
  address : Option JScalar
  unique_id : Option JScalar
  state : σ
deriving DecidableEq

/-- The two coexisting indices of the shadow directory
(`entities_by_address`, keyed by the raw int-or-string address, and
`entities_by_unique_id`, keyed by the stringified unique id). -/
structure Directory (σ : Type) where
  entities_by_address : List (JScalar × Entity σ)
  entities_by_unique_id : List (String × Entity σ)
deriving DecidableEq

/-- Unique-id extraction of the status handler:
`payload.get("unique_id") or payload.get("uniqueId") or payload.get("uniqueid")`. -/
def status_unique_id (p : JDoc) : Option JVal :=
  pyOr (pyOr (pyGet p "unique_id") (pyGet p "uniqueId")) (pyGet p "uniqueid")

/-- Fallback full scan over `entities_by_unique_id.values()`: per entity,
first the stringified address, then the stringified unique id is
compared; the first entity matching either is returned. -/
def scan_fallback {σ : Type} (l : List (String × Entity σ)) (sAddr sUniq : String) :
    Option (Entity σ) :=
  match l with
  | [] => none
  | (_, e) :: rest =>
    if (match e.address with
        | some a => pyStrS a == sAddr
        | none => false) then some e
    else if (match e.unique_id with
        | some u => pyStrS u == sUniq
        | none => false) then some e
    else scan_fallback rest sAddr sUniq

/-- Resolution steps 3 and 4, reached when the address lookups miss
(or when the payload carries no address). -/
def resolve_after_address {σ : Type} (dir : Directory σ) (address unique : Option JVal) :
    Option (Entity σ) :=
  match (if truthyOpt unique then dictGet dir.entities_by_unique_id (pyStrOpt unique)
         else none) with
  | some e => some e
  | none => scan_fallback dir.entities_by_unique_id (pyStrOpt address) (pyStrOpt unique)

/-- Central status handler (`handle_status_message`): returns the entity
whose `_update_from_payload` is scheduled for the decoded payload, or
`none` when the message is dropped.  A dict-valued `address` would be an
unhashable dict key: CPython raises `TypeError` out of the handler and
no update is scheduled, which the embedding renders as `none`. -/
def handle_status_message {σ : Type} (dir : Directory σ) (p : JDoc) : Option (Entity σ) :=
  let address := pyGet p "address"
  let unique := status_unique_id p
  match address with
  | some (JVal.obj _) => none
  | some (JVal.s a) =>
    match pyOrEnt (dictGet dir.entities_by_address a)
        (dictGet dir.entities_by_address (JScalar.jstr (pyStrS a))) with
    | some e => some e
    | none => resolve_after_address dir address unique
  | none => resolve_after_address dir address unique

/-- Resolution step 1: direct address-index lookup with the native value. -/
def step_addr_native {σ : Type} (dir : Directory σ) (p : JDoc) : Option (Entity σ) :=
  match pyGet p "address" with
  | some (JVal.s a) => dictGet dir.entities_by_address a
  | _ => none

/-- Resolution step 2: address-index lookup with the stringified value. -/
def step_addr_string {σ : Type} (dir : Directory σ) (p : JDoc) : Option (Entity σ) :=
  match pyGet p "address" with
  | some (JVal.s a) => dictGet dir.entities_by_address (JScalar.jstr (pyStrS a))
  | _ => none

/-- Resolution step 3: unique-id-index lookup when the payload carries a
truthy unique id. -/
def step_unique_id {σ : Type} (dir : Directory σ) (p : JDoc) : Option (Entity σ) :=
  let u := status_unique_id p
  if truthyOpt u then dictGet dir.entities_by_unique_id (pyStrOpt u) else none

/-- Resolution step 4: the fallback full scan. -/
def step_full_scan {σ : Type} (dir : Directory σ) (p : JDoc) : Option (Entity σ) :=
  scan_fallback dir.entities_by_unique_id (pyStrOpt (pyGet p "address"))
    (pyStrOpt (status_unique_id p))

/-- A payload's `address` value is usable as a dict key (it is absent or
a scalar; a dict-valued address would raise `TypeError`). -/
def address_hashable (p : JDoc) : Bool :=
  match pyGet p "address" with
  | some (JVal.obj _) => false
  | _ => true

/-- Effect of the scheduled `_update_from_payload` on the directory:
the resolved entity's state is overwritten in both indices (the Python
dicts hold references to one shared object; value equality stands in
for object identity).  A dropped message leaves the directory untouched. -/
def apply_status_message {σ : Type} [DecidableEq σ] (upd : σ → JDoc → σ)
    (dir : Directory σ) (p : JDoc) : Directory σ :=
  match handle_status_message dir p with
  | none => dir
  | some e =>
    { entities_by_address := dir.entities_by_address.map
        (fun kv => if kv.2 = e then (kv.1, { kv.2 with state := upd kv.2.state p }) else kv),
      entities_by_unique_id := dir.entities_by_unique_id.map
        (fun kv => if kv.2 = e then (kv.1, { kv.2 with state := upd kv.2.state p }) else kv) }

/-!
Light shadow (`light.py`, class `LytivaLight`).

The constructor fields the claims exercise are modelled; topics and
device metadata, which only flow into host registration, are omitted.
The mireds options are modelled as integers (the integration's
discovery payloads carry integer mireds; a non-integer value would make
every later use of it raise and fall back).
-/

/-- Light shadow state: `light_type`, the address attribute the router's
scan reads, the mireds bounds, and the mutable `_attr_*` state fields. -/
structure LytivaLight where
  light_type : String
  address : JScalar
  min_mireds : Int
  max_mireds : Int
  is_on : Bool
  brightness : Int
  color_temp : Int
  rgb_color : List JScalar
deriving DecidableEq

/-- Light-type detection of `LytivaLight.__init__`: `config.get("type",
"dimmer")` (a stored null becomes `None`), then the cct/rgb topic keys
take precedence, then "dimmer", else "switch". -/
def light_type_of (config : JDoc) : String :=
  let t : Option JVal :=
    match jget config "type" with
    | some (JVal.s JScalar.jnull) => none
    | some v => some v
    | none => some (JVal.s (JScalar.jstr "dimmer"))
  if dictHas config "color_temp_command_topic" || t == some (JVal.s (JScalar.jstr "cct")) then
    "cct"
  else if dictHas config "rgb_command_topic" || t == some (JVal.s (JScalar.jstr "rgb")) then
    "rgb"
  else if t == some (JVal.s (JScalar.jstr "dimmer")) then "dimmer"
  else "switch"

/-- Address attribute of `LytivaLight.__init__`:
`addr = config.get("address") or config.get("unique_id")`, then
`int(addr)` with `str(addr)` as the exception fallback  (`str(None)` is
"None"; a dict address falls back to its string placeholder). -/
def light_address_of (config : JDoc) : JScalar :=
  match pyOr (pyGet config "address") (pyGet config "unique_id") with
  | some (JVal.s v) =>
    match pyIntS v with
    | some n => JScalar.jint n
    | none => JScalar.jstr (pyStrS v)
  | some (JVal.obj o) => JScalar.jstr (pyStr (JVal.obj o))
  | none => JScalar.jstr "None"

/-- Integer mireds option with the constructor's default. -/
def light_mireds_of (config : JDoc) (k : String) (dflt : Int) : Int :=
  match jget config k with
  | some (JVal.s (JScalar.jint n)) => n
  | _ => dflt

/-- Constructor `LytivaLight.__init__(hass, config, mqtt)`. -/
def LytivaLight.ofConfig (config : JDoc) : LytivaLight :=
  { light_type := light_type_of config
    address := light_address_of config
    min_mireds := light_mireds_of config "min_mireds" 154
    max_mireds := light_mireds_of config "max_mireds" 370
    is_on := false
    brightness := 255
    color_temp := light_mireds_of config "min_mireds" 154
    rgb_color := [JScalar.jint 255, JScalar.jint 255, JScalar.jint 255] }

/-- Dimmer-branch extraction in `_update_from_payload`:
`payload["dimmer"].get("dimming")` when the payload carries a `dimmer`
key (a non-dict value there raises and leaves the state untouched,
rendered as `none`), else the top-level `dimming` value when carried. -/
def dimmer_dim_value (p : JDoc) : Option JVal :=
  if dictHas p "dimmer" then
    match jget p "dimmer" with
    | some (JVal.obj sub) => (sget sub "dimming").map JVal.s
    | _ => none
  else if dictHas p "dimming" then pyGet p "dimming"
  else none

/-- CCT color-temperature assignment:
`round(max_mireds - ct * (max_mireds - min_mireds) / 100)` guarded by
its own `try/except: pass` (a non-numeric value leaves it unchanged). -/
def cct_apply_ct (l : LytivaLight) (ct : Option JScalar) : LytivaLight :=
  match ct with
  | none => l
  | some v =>
    match pyNumS v with
    | some c =>
      { l with color_temp :=
          bankersDiv (l.max_mireds * 100 - c * (l.max_mireds - l.min_mireds)) 100 }
    | none => l

/-- Switch/fallback power extraction: `payload["switch"].get("power")`
when `switch` is a dict, else the top-level `power` value. -/
def switch_power_value (p : JDoc) : Option JVal :=
  let pw : Option JScalar :=
    match jget p "switch" with
    | some (JVal.obj sub) => sget sub "power"
    | _ => none
  match pw with
  | some v => some (JVal.s v)
  | none => pyGet p "power"

/-- Status decode `LytivaLight._update_from_payload(payload)`.  Branch
order follows the source: dimmer; cct (requires a `cct` key, else the
fallback); rgb (requires an `rgb` key, else the fallback); the
switch/group fallback.  A `TypeError` inside the wrapping `try` leaves
the not-yet-assigned fields at their prior values. -/
def LytivaLight.update_from_payload (l : LytivaLight) (p : JDoc) : LytivaLight :=
  if l.light_type == "dimmer" then
    match dimmer_dim_value p with
    | none => l
    | some v =>
      match pyNum v with
      | some d => { l with brightness := Int.tdiv (d * 255) 100, is_on := decide (0 < d) }
      | none => l
  else if l.light_type == "cct" && dictHas p "cct" then
    match jget p "cct" with
    | some (JVal.obj cct) =>
      match sget cct "dimming" with
      | some dv =>
        match pyNumS dv with
        | some d =>
          cct_apply_ct { l with brightness := Int.tdiv (d * 255) 100, is_on := decide (0 < d) }
            (sget cct "color_temperature")
        | none => l
      | none => cct_apply_ct l (sget cct "color_temperature")
    | _ => l
  else if l.light_type == "rgb" && dictHas p "rgb" then
    match jget p "rgb" with
    | some (JVal.obj rgb) =>
      let channels := [sgetD rgb "r" (JScalar.jint 0), sgetD rgb "g" (JScalar.jint 0),
        sgetD rgb "b" (JScalar.jint 0)]
      { l with rgb_color := channels, is_on := channels.any truthyS }
    | _ => l
  else
    match switch_power_value p with
    | none => l
    | some v => { l with is_on := truthy v }

/-- Command encode `LytivaLight.async_turn_on(**kwargs)`: the published
JSON document.  `brightness`, `color_temp` and `rgb` model the kwargs
(`none` means the kwarg is absent and the stored attribute is used; the
rgb fallback casts the stored channels with `int()`, dropping ones that
would raise — the claims only exercise the dimmer branch). -/
def LytivaLight.turn_on_payload (l : LytivaLight) (brightness color_temp : Option Int)
    (rgb : Option (Int × Int × Int)) : JDoc :=
  let base : JDoc := [("version", JVal.s (JScalar.jstr "v1.0")), ("address", JVal.s l.address)]
  if l.light_type == "dimmer" then
    let b := brightness.getD l.brightness
    base ++ [("type", JVal.s (JScalar.jstr "dimmer")),
      ("dimming", JVal.s (JScalar.jint (Int.tdiv (b * 100) 255)))]
  else if l.light_type == "cct" then
    let b := brightness.getD l.brightness
    let ct := color_temp.getD l.color_temp
    let scaled : Int :=
      if l.max_mireds - l.min_mireds = 0 then 50
      else 100 - Int.tdiv ((ct - l.min_mireds) * 100) (l.max_mireds - l.min_mireds)
    base ++ [("type", JVal.s (JScalar.jstr "cct")),
      ("dimming", JVal.s (JScalar.jint (Int.tdiv (b * 100) 255))),
      ("color_temperature", JVal.s (JScalar.jint scaled))]
  else if l.light_type == "rgb" then
    let chans : List Int :=
      match rgb with
      | some (r, g, b) => [r, g, b]
      | none => l.rgb_color.filterMap pyIntS
    base ++ [("type", JVal.s (JScalar.jstr "rgb"))] ++
      (List.zip ["r", "g", "b"] chans).map (fun kv => (kv.1, JVal.s (JScalar.jint kv.2)))
  else
    base ++ [("type", JVal.s (JScalar.jstr "switch")), ("power", JVal.s (JScalar.jbool true))]

/-- Discovery callback `on_light_discovery` (platform light): drops
payloads without a `unique_id`, skips ids already in the shared
`devices` dict, otherwise constructs a `LytivaLight` and stores it
under the stringified id. -/
def on_light_discovery (devices : List (JVal × LytivaLight)) (p : JDoc) :
    List (JVal × LytivaLight) :=
  match pyGet p "unique_id" with
  | none => devices
  | some uid =>
    let key := JVal.s (JScalar.jstr (pyStr uid))
    if dictHas devices key then devices
    else devices ++ [(key, LytivaLight.ofConfig p)]

/-!
Fan shadow (`fan.py`, class `LytivaFan`).  The attributes the claims
exercise are modelled: `_address` (`device.get("unique_id") or
device.get("address")`), `_percentage` and `_available`.
-/

/-- Fan shadow state. -/
structure LytivaFan where
  address : Option JVal
  percentage : Option Int
  available : Bool
deriving DecidableEq

/-- Status decode `LytivaFan._on_state`: drop on stringified-address
mismatch; `fan = payload.get("fan") or ` empty dict; when the dict
carries `fan_speed`, `speed = int(fan.get("fan_speed", 0))` guarded by
`try/except: pass`, then `percentage = min(max(speed * 20, 0), 100)`;
success marks the fan available.  A truthy non-dict `fan` value makes
the handler raise (`in` on a non-container, or `.get` on a string whose
text contains "fan_speed") and the outer `except` marks it unavailable. -/
def LytivaFan.on_state (f : LytivaFan) (p : JDoc) : LytivaFan :=
  if pyStrOpt (pyGet p "address") != pyStrOpt f.address then f
  else
    let fanv : JVal :=
      match pyGet p "fan" with
      | some v => if truthy v then v else JVal.obj []
      | none => JVal.obj []
    match fanv with
    | JVal.obj fields =>
      if dictHas fields "fan_speed" then
        match pyIntS (sgetD fields "fan_speed" (JScalar.jint 0)) with
        | some speed =>
          { f with percentage := some (min (max (speed * 20) 0) 100), available := true }
        | none => { f with available := true }
      else { f with available := true }
    | JVal.s (JScalar.jstr txt) =>
      if containsSub txt "fan_speed" then { f with available := false }
      else { f with available := true }
    | _ => { f with available := false }

/-- Command encode `LytivaFan.async_set_percentage(percentage)`:
`fan_speed = max(0, min(5, round(percentage / 20)))` and the published
document; `int(self._address)` raising means nothing is published. -/
def LytivaFan.set_percentage_payload (f : LytivaFan) (percentage : Int) : Option JDoc :=
  let fan_speed := max 0 (min 5 (bankersDiv percentage 20))
  match f.address with
  | some (JVal.s v) =>
    match pyIntS v with
    | some a =>
      some [("version", JVal.s (JScalar.jstr "v1.0")), ("type", JVal.s (JScalar.jstr "fan")),
        ("address", JVal.s (JScalar.jint a)), ("fan_speed", JVal.s (JScalar.jint fan_speed))]
    | none => none
  | _ => none

/-- Discovery callback `add_new_fan` (fan platform): constructs a
`LytivaFan` and registers it with the host on every invocation — there
is no duplicate check. -/
def add_new_fan (registered : List LytivaFan) (device : JDoc) : List LytivaFan :=
  registered ++ [LytivaFan.mk (pyOr (pyGet device "unique_id") (pyGet device "address")) none true]

/-!
Climate shadow, status side (`sensor.py`, class `LytivaClimateEntity`,
method `_update_from_status`).  Temperatures are modelled as integers
(see `pyFloatInt`); sub-document values are scalars in this embedding,
so the `TypeError` paths for container-valued entries do not arise.
-/

/-- Fixed decode list of `_update_from_status`:
the mapping 0,1,2,3,4,5 to Vlow, Low, Med, High, Top, Auto. -/
def fan_speed_names : List String :=
  ["Vlow", "Low", "Med", "High", "Top", "Auto"]

/-- Keys of `HVAC_MAP` (the `HVACMode` enumeration values are modelled
by their wire strings). -/
def hvac_mode_keys : List String :=
  ["cool", "heat", "dry", "fan_only", "auto", "off"]

/-- Climate shadow state (the mutable fields plus the immutable
`_address` and `_fan_modes` the decode reads). -/
structure LytivaClimateEntity where
  address : Option JVal
  fan_modes : List String
  hvac_mode : String
  target_temp : Int
  current_temp : Option Int
  fan_mode : String
  preset : String
  available : Bool
deriving DecidableEq

/-- Power/preset step: a carried `power` sets preset to "On"/"Off". -/
def clim_power (c : LytivaClimateEntity) (u : Bool) (ir : List (String × JScalar)) :
    LytivaClimateEntity × Bool :=
  match sget ir "power" with
  | some v => ({ c with preset := if truthyS v then "On" else "Off" }, true)
  | none => (c, u)

/-- Mode step: "fan" is renamed to "fan_only"; only known map keys
update the mode. -/
def clim_mode (c : LytivaClimateEntity) (u : Bool) (ir : List (String × JScalar)) :
    LytivaClimateEntity × Bool :=
  match sget ir "mode" with
  | some mv =>
    let mv2 := if mv == JScalar.jstr "fan" then JScalar.jstr "fan_only" else mv
    match mv2 with
    | JScalar.jstr s =>
      if hvac_mode_keys.contains s then ({ c with hvac_mode := s }, true) else (c, u)
    | _ => (c, u)
  | none => (c, u)

/-- Fan-speed step: `mapping.get(fan_speed, self._fan_modes[0])`.  The
default argument is evaluated first, so an empty `_fan_modes` raises
`IndexError` (third component `true` = the handler's `except` fires and
keeps the partial update).  Python `True`/`False` hash like 1/0. -/
def clim_fan_speed (c : LytivaClimateEntity) (u : Bool) (ir : List (String × JScalar)) :
    LytivaClimateEntity × Bool × Bool :=
  match sget ir "fan_speed" with
  | none => (c, u, false)
  | some fv =>
    match c.fan_modes.head? with
    | none => (c, u, true)
    | some d0 =>
      let name :=
        match fv with
        | JScalar.jint n => if 0 ≤ n && n ≤ 5 then fan_speed_names.getD n.toNat d0 else d0
        | JScalar.jbool b => fan_speed_names.getD (if b then 1 else 0) d0
        | _ => d0
      ({ c with fan_mode := name }, true, false)

/-- Trailing steps of `_update_from_status` after the target
temperature: current temperature, fan speed, then the availability
write guarded by `if updated`.  A `float()` failure aborts with the
partial state (the whole method body is wrapped in `try/except`). -/
def clim_after_temp (c : LytivaClimateEntity) (u : Bool) (ir : List (String × JScalar)) :
    LytivaClimateEntity :=
  let step :=
    match sget ir "current_temperature" with
    | some tv =>
      match pyFloatInt tv with
      | none => (c, u, true)
      | some t => ({ c with current_temp := some t }, true, false)
    | none => (c, u, false)
  match step with
  | (c2, _, true) => c2
  | (c2, u2, false) =>
    match clim_fan_speed c2 u2 ir with
    | (c3, _, true) => c3
    | (c3, u3, false) => if u3 then { c3 with available := true } else c3

/-- Field steps of `_update_from_status` in source order, applied to a
decoded `ir_ac` dict: power, mode, target temperature (a `float()`
failure aborts with the partial state), then the trailing steps. -/
def clim_body (c : LytivaClimateEntity) (ir : List (String × JScalar)) :
    LytivaClimateEntity :=
  let pu := clim_power c false ir
  let mu := clim_mode pu.1 pu.2 ir
  match sget ir "temperature" with
  | some tv =>
    match pyFloatInt tv with
    | none => mu.1
    | some t => clim_after_temp { mu.1 with target_temp := t } true ir
  | none => clim_after_temp mu.1 mu.2 ir

/-- Status decode `LytivaClimateEntity._update_from_status(payload)`:
drop on native-equality address mismatch; `ir = payload.get("ir_ac",
empty dict)` (a scalar or null value there raises on the first `.get`
and nothing changes); then the field steps in source order. -/
def LytivaClimateEntity.update_from_status (c : LytivaClimateEntity) (p : JDoc) :
    LytivaClimateEntity :=
  if pyGet p "address" != c.address then c
  else
    match (match jget p "ir_ac" with
           | some v => v
           | none => JVal.obj []) with
    | JVal.s _ => c
    | JVal.obj ir => clim_body c ir

/-- Proof infrastructure: the per-field writes one pass of `clim_body`
performs, as optional values (`none` = the field keeps its prior
value).  Computed from the sub-document and the shadow's immutable
`_fan_modes` alone, which is what makes the decode idempotent. -/
structure ClimWrites where
  preset : Option String
  hvac_mode : Option String
  target_temp : Option Int
  current_temp : Option (Option Int)
  fan_mode : Option String
  available : Option Bool
deriving DecidableEq

/-- Preset write of the power step. -/
def clim_power_write (ir : List (String × JScalar)) : Option String :=
  (sget ir "power").map (fun v => if truthyS v then "On" else "Off")

/-- Mode write of the mode step. -/
def clim_mode_write (ir : List (String × JScalar)) : Option String :=
  match sget ir "mode" with
  | some mv =>
    match (if mv == JScalar.jstr "fan" then JScalar.jstr "fan_only" else mv) with
    | JScalar.jstr s => if hvac_mode_keys.contains s then some s else none
    | _ => none
  | none => none

/-- Target-temperature write (also `none` on the `float()` abort). -/
def clim_target_write (ir : List (String × JScalar)) : Option Int :=
  match sget ir "temperature" with
  | some tv => pyFloatInt tv
  | none => none

/-- Whether the target-temperature step aborts the handler. -/
def clim_target_abort (ir : List (String × JScalar)) : Bool :=
  match sget ir "temperature" with
  | some tv => (pyFloatInt tv).isNone
  | none => false

/-- Current-temperature write of its step, ignoring earlier aborts. -/
def clim_curr_write (ir : List (String × JScalar)) : Option (Option Int) :=
  match sget ir "current_temperature" with
  | some tv => (pyFloatInt tv).map some
  | none => none

/-- Whether the current-temperature step aborts the handler. -/
def clim_curr_abort (ir : List (String × JScalar)) : Bool :=
  match sget ir "current_temperature" with
  | some tv => (pyFloatInt tv).isNone
  | none => false

/-- Fan-mode write of the fan-speed step, ignoring earlier aborts. -/
def clim_fan_write (ir : List (String × JScalar)) (fan_modes : List String) : Option String :=
  match sget ir "fan_speed", fan_modes.head? with
  | some fv, some d0 =>
    some (match fv with
          | JScalar.jint n => if 0 ≤ n && n ≤ 5 then fan_speed_names.getD n.toNat d0 else d0
          | JScalar.jbool b => fan_speed_names.getD (if b then 1 else 0) d0
          | _ => d0)
  | _, _ => none

/-- Whether the fan-speed step aborts (`_fan_modes[0]` on an empty list). -/
def clim_fan_abort (ir : List (String × JScalar)) (fan_modes : List String) : Bool :=
  (sget ir "fan_speed").isSome && fan_modes.isEmpty

/-- Field writes of one `clim_body` pass: each component mirrors the
corresponding step, including the abort points (a `float()` failure at
`temperature` suppresses the later writes, one at
`current_temperature` suppresses the fan and availability writes, and
an empty `_fan_modes` with a carried `fan_speed` suppresses the
availability write). -/
def clim_writes (ir : List (String × JScalar)) (fan_modes : List String) : ClimWrites :=
  let tAbort := clim_target_abort ir
  let cAbort := !tAbort && clim_curr_abort ir
  let currW := if tAbort then none else clim_curr_write ir
  let fanW := if tAbort || cAbort then none else clim_fan_write ir fan_modes
  let availW : Option Bool :=
    if tAbort || cAbort || clim_fan_abort ir fan_modes then none
    else if (clim_power_write ir).isSome || (clim_mode_write ir).isSome ||
        (clim_target_write ir).isSome || currW.isSome ||
        (sget ir "fan_speed").isSome then some true
    else none
  ClimWrites.mk (clim_power_write ir) (clim_mode_write ir) (clim_target_write ir)
    currW fanW availW

/-- Application of a write set to a shadow (overwrite on presence). -/
def clim_apply (c : LytivaClimateEntity) (w : ClimWrites) : LytivaClimateEntity :=
  { c with
    preset := w.preset.getD c.preset
    hvac_mode := w.hvac_mode.getD c.hvac_mode
    target_temp := w.target_temp.getD c.target_temp
    current_temp := w.current_temp.getD c.current_temp
    fan_mode := w.fan_mode.getD c.fan_mode
    available := w.available.getD c.available }

/-!
Climate command side (`climate.py`, `async_set_fan_mode`).  The
published bytes come from the discovery payload's Jinja command
template, an external collaborator; the observables the source computes
and feeds it are `fan_index = self._fan_modes.index(fan_mode) + 1` and
the template variable `mapping = one-based enumeration of _fan_modes`.
-/

/-- Device fan-speed integer computed by `async_set_fan_mode` for a
chosen fan mode: `none` when the mode is rejected by the guard
(`fan_mode not in self._fan_modes`), else its list position plus one. -/
def climate_fan_index (fan_modes : List String) (fan_mode : String) : Option Nat :=
  if fan_modes.contains fan_mode then some (fan_modes.indexOf fan_mode + 1) else none

/-- Template variable `mapping` passed to the fan-mode command template:
each configured fan mode paired with its one-based position. -/
def climate_fan_command_mapping (fan_modes : List String) : List (String × Nat) :=
  fan_modes.enum.map (fun p => (p.2, p.1 + 1))

/-!
Switch shadow (`switch.py`, class `LytivaSwitch`).
-/

/-- Switch shadow state: the `_attr_unique_id`, the mutable
`_attr_is_on`, the value template source and the configured state
strings (`config.get(k, default)` keeps a stored null as `None`). -/
structure LytivaSwitch where
  unique_id : String
  is_on : Bool
  value_template : Option JVal
  state_on : Option JVal
  state_off : Option JVal
deriving DecidableEq

/-- Python `config.get(k, dflt)` on a document: a stored null is the
stored value `None`; only a missing key yields the default. -/
def pyGetD (d : JDoc) (k : String) (dflt : JVal) : Option JVal :=
  match jget d k with
  | some (JVal.s JScalar.jnull) => none
  | some v => some v
  | none => some dflt

/-- Constructor `LytivaSwitch.__init__` (the modelled attributes). -/
def LytivaSwitch.ofConfig (config : JDoc) : LytivaSwitch :=
  { unique_id := "lytiva_" ++ pyStrOpt (pyGet config "unique_id")
    is_on := false
    value_template := pyGet config "value_template"
    state_on := pyGetD config "state_on" (JVal.s (JScalar.jstr "ON"))
    state_off := pyGetD config "state_off" (JVal.s (JScalar.jstr "OFF")) }

/-- Comparison `str(value).strip() == configured`: Python equality of a
string against the stored configured value (false against any
non-string, including `None`). -/
def pyEqStr (s : String) (v : Option JVal) : Bool :=
  match v with
  | some (JVal.s (JScalar.jstr t)) => s == t
  | _ => false

/-- State handler `on_state_message` of the switch: the rendered value
is the template output when a truthy template is configured and
rendering succeeds (`template_result`, stringified by the caller-side
`str()`), the raw payload text on template error or without a template;
the stripped value is compared against `state_on` then `state_off`, and
any other value changes nothing. -/
def LytivaSwitch.rendered_value (sw : LytivaSwitch) (template_result : Option String)
    (payload : String) : String :=
  if truthyOpt sw.value_template then
    match template_result with
    | some s => s
    | none => payload
  else payload

/-- Comparison stage of `on_state_message`: the stripped rendered value
against `state_on`, then `state_off`; any other value changes nothing. -/
def LytivaSwitch.on_state_message (sw : LytivaSwitch) (template_result : Option String)
    (payload : String) : LytivaSwitch :=
  let value := sw.rendered_value template_result payload
  if pyEqStr (pyStrip value) sw.state_on then { sw with is_on := true }
  else if pyEqStr (pyStrip value) sw.state_off then { sw with is_on := false }
  else sw

/-- Discovery callback `on_switch_discovery`: `if not unique_id: return`
(truthiness), a raw-key membership check against the shared `devices`
dict (a dict-valued id would raise inside the handler's `except`), then
construct and store under the raw id. -/
def on_switch_discovery (devices : List (JVal × LytivaSwitch)) (p : JDoc) :
    List (JVal × LytivaSwitch) :=
  match pyGet p "unique_id" with
  | none => devices
  | some uid =>
    if truthy uid then
      match uid with
      | JVal.obj _ => devices
      | _ =>
        if dictHas devices uid then devices
        else devices ++ [(uid, LytivaSwitch.ofConfig p)]
    else devices

/-!
Cover shadow (`cover.py`, class `LytivaCurtain` and the discovery
callback `add_new_cover`).
-/

/-- Curtain shadow state (the constructor-assigned attributes the
claims exercise; topics and metadata that only flow into logging or
host registration are omitted). -/
structure LytivaCurtain where
  unique_id : String
  address : Option JVal
  command_topic : Option JVal
  set_position_template : Option JVal
  position : Option Int
  available : Bool
deriving DecidableEq

/-- Constructor `LytivaCurtain.__init__(device, mqtt)`. -/
def LytivaCurtain.ofDevice (device : JDoc) : LytivaCurtain :=
  { unique_id := pyStrOpt (pyOr (pyGet device "unique_id") (pyGet device "address"))
    address := pyGet device "address"
    command_topic := pyGet device "command_topic"
    set_position_template := pyGet device "set_position_template"
    position := none
    available := true }

/-- Discovery callback `add_new_cover` (cover platform): constructs a
`LytivaCurtain` and registers it with the host on every invocation —
there is no duplicate check. -/
def add_new_cover (registered : List LytivaCurtain) (device : JDoc) : List LytivaCurtain :=
  registered ++ [LytivaCurtain.ofDevice device]

/-!
Discovery registry (`__init__.py`, `on_discovery`): canonical id
extraction and the store into `discovered_payloads`.
-/

/-- Canonical id of a discovery payload:
`payload.get("unique_id") or payload.get("uniqueId") or
payload.get("uniqueid") or payload.get("address")`. -/
def discovery_unique_id (p : JDoc) : Option JVal :=
  pyOr (pyOr (pyOr (pyGet p "unique_id") (pyGet p "uniqueId")) (pyGet p "uniqueid"))
    (pyGet p "address")

/-- Python dict assignment `d[k] = v`: replace in place when the key
exists, else append (insertion order preserved). -/
def dictSet {α : Type} (reg : List (String × α)) (k : String) (v : α) :
    List (String × α) :=
  if dictHas reg k then reg.map (fun kv => if kv.1 == k then (k, v) else kv)
  else reg ++ [(k, v)]

/-- Registry store of `on_discovery`: payloads without an id are
dropped; otherwise the payload is stored under the stringified id
unconditionally (`discovered_payloads[unique_id] = payload`). -/
def on_discovery (reg : List (String × JDoc)) (p : JDoc) : List (String × JDoc) :=
  match discovery_unique_id p with
  | none => reg
  | some uid => dictSet reg (pyStr uid) p

/-!
Helper lemmas shared by the claim theorems.
-/

/-- Overwriting with the same optional write twice is one overwrite. -/
theorem getD_getD {α : Type} (o : Option α) (x : α) : o.getD (o.getD x) = o.getD x := by
  cases o <;> rfl

/-- Characterization of the power step by its write. -/
theorem clim_power_char (c : LytivaClimateEntity) (u : Bool) (ir : List (String × JScalar)) :
    clim_power c u ir =
      ({ c with preset := (clim_power_write ir).getD c.preset },
       u || (sget ir "power").isSome) := by
  unfold clim_power clim_power_write
  cases h : sget ir "power" <;> simp

/-- Characterization of the mode step by its write. -/
theorem clim_mode_char (c : LytivaClimateEntity) (u : Bool) (ir : List (String × JScalar)) :
    clim_mode c u ir =
      ({ c with hvac_mode := (clim_mode_write ir).getD c.hvac_mode },
       u || (clim_mode_write ir).isSome) := by
  unfold clim_mode clim_mode_write
  cases h : sget ir "mode" with
  | none => simp
  | some mv =>
    cases hmv2 : (if mv == JScalar.jstr "fan" then JScalar.jstr "fan_only" else mv) with
    | jstr s2 =>
      simp only [hmv2]
      cases hc : hvac_mode_keys.contains s2 <;> simp [hc]
    | jnull => simp only [hmv2]; simp
    | jbool b => simp only [hmv2]; simp
    | jint n => simp only [hmv2]; simp

/-- Characterization of the fan-speed step by its write and abort flag. -/
theorem clim_fan_char (c : LytivaClimateEntity) (u : Bool) (ir : List (String × JScalar)) :
    clim_fan_speed c u ir =
      ({ c with fan_mode := (clim_fan_write ir c.fan_modes).getD c.fan_mode },
       u || (clim_fan_write ir c.fan_modes).isSome,
       clim_fan_abort ir c.fan_modes) := by
  obtain ⟨ad, fm, hv, tt, ct, fmo, pr, av⟩ := c
  unfold clim_fan_speed clim_fan_write clim_fan_abort
  cases hf : sget ir "fan_speed" with
  | none => simp
  | some fv =>
    cases fm with
    | nil => simp
    | cons d0 rest => simp

/-- Characterization of the trailing steps by their writes. -/
theorem clim_after_temp_char (c : LytivaClimateEntity) (u : Bool) (ir : List (String × JScalar)) :
    clim_after_temp c u ir =
      { c with
        current_temp := (if clim_curr_abort ir then none else clim_curr_write ir).getD c.current_temp,
        fan_mode := (if clim_curr_abort ir then none
          else clim_fan_write ir c.fan_modes).getD c.fan_mode,
        available := (if clim_curr_abort ir || clim_fan_abort ir c.fan_modes then none
          else if u || (clim_curr_write ir).isSome || (sget ir "fan_speed").isSome then some true
          else none).getD c.available } := by
  obtain ⟨ad, fm, hv, tt, ct, fmo, pr, av⟩ := c
  unfold clim_after_temp clim_curr_abort clim_curr_write clim_fan_speed clim_fan_write
    clim_fan_abort
  cases hc : sget ir "current_temperature" with
  | none =>
    cases hf : sget ir "fan_speed" with
    | none => cases u <;> simp
    | some fv =>
      cases fm with
      | nil => simp
      | cons d0 rest => cases u <;> simp
  | some tv =>
    cases hfl : pyFloatInt tv with
    | none => simp [hfl]
    | some t =>
      cases hf : sget ir "fan_speed" with
      | none => simp [hfl]
      | some fv =>
        cases fm with
        | nil => simp [hfl]
        | cons d0 rest => simp [hfl]

/-- A current-temperature abort means its write is `none`. -/
theorem clim_curr_write_of_abort (ir : List (String × JScalar))
    (h : clim_curr_abort ir = true) : clim_curr_write ir = none := by
  unfold clim_curr_abort at h
  unfold clim_curr_write
  cases hc : sget ir "current_temperature" with
  | none => rfl
  | some tv => rw [hc] at h; cases hfl : pyFloatInt tv <;> simp [hfl] at h ⊢

/-- The power write fires exactly when `power` is carried. -/
theorem clim_power_write_isSome (ir : List (String × JScalar)) :
    (clim_power_write ir).isSome = (sget ir "power").isSome := by
  unfold clim_power_write
  cases h : sget ir "power" <;> simp

/-- Normal form of one `clim_body` pass: it applies exactly the write
set computed from the sub-document and the shadow's `_fan_modes`. -/
theorem clim_body_writes (c : LytivaClimateEntity) (ir : List (String × JScalar)) :
    clim_body c ir = clim_apply c (clim_writes ir c.fan_modes) := by
  unfold clim_body clim_writes clim_apply clim_target_write clim_target_abort
  simp only [clim_power_char, clim_mode_char, clim_after_temp_char]
  cases ht : sget ir "temperature" with
  | none =>
    by_cases hca : clim_curr_abort ir = true <;>
      by_cases hfa : clim_fan_abort ir c.fan_modes = true <;>
      simp [ht, hca, hfa, clim_power_write_isSome, clim_curr_write_of_abort]
  | some tv =>
    cases hfl : pyFloatInt tv with
    | none => simp [ht, hfl]
    | some t =>
      by_cases hca : clim_curr_abort ir = true <;>
        by_cases hfa : clim_fan_abort ir c.fan_modes = true <;>
        simp [ht, hfl, hca, hfa, clim_power_write_isSome, clim_curr_write_of_abort]

/-- Applying a write set twice equals applying it once. -/
theorem clim_apply_apply (c : LytivaClimateEntity) (w : ClimWrites) :
    clim_apply (clim_apply c w) w = clim_apply c w := by
  unfold clim_apply
  simp [getD_getD]

/-- One decode pass of the climate shadow is idempotent. -/
theorem clim_body_idem (c : LytivaClimateEntity) (ir : List (String × JScalar)) :
    clim_body (clim_body c ir) ir = clim_body c ir := by
  rw [clim_body_writes c ir]
  rw [clim_body_writes (clim_apply c (clim_writes ir c.fan_modes)) ir]
  exact clim_apply_apply c (clim_writes ir c.fan_modes)

/-- The otherwise-guarded decode reduces to `clim_body` when the address
matches and the `ir_ac` entry decodes as a dict. -/
theorem clim_update_eq_body (c : LytivaClimateEntity) (p : JDoc) (ir : List (String × JScalar))
    (hg : (pyGet p "address" != c.address) = false)
    (hext : (match jget p "ir_ac" with
             | some v => v
             | none => JVal.obj []) = JVal.obj ir) :
    c.update_from_status p = clim_body c ir := by
  unfold LytivaClimateEntity.update_from_status
  simp [hg, hext]

/-- The climate status decode is idempotent. -/
theorem clim_update_idem (c : LytivaClimateEntity) (p : JDoc) :
    (c.update_from_status p).update_from_status p = c.update_from_status p := by
  by_cases hg : (pyGet p "address" != c.address) = true
  · have h1 : c.update_from_status p = c := by
      unfold LytivaClimateEntity.update_from_status
      simp [hg]
    rw [h1, h1]
  · have hgf : (pyGet p "address" != c.address) = false := by
      simpa using hg
    cases hext : (match jget p "ir_ac" with
                  | some v => v
                  | none => JVal.obj []) with
    | s sv =>
      have h1 : c.update_from_status p = c := by
        unfold LytivaClimateEntity.update_from_status
        simp [hgf, hext]
      rw [h1, h1]
    | obj ir =>
      have h1 : c.update_from_status p = clim_body c ir := clim_update_eq_body c p ir hgf hext
      have hg2 : (pyGet p "address" != (clim_body c ir).address) = false := by
        rw [clim_body_writes]
        exact hgf
      have h2 : (clim_body c ir).update_from_status p = clim_body (clim_body c ir) ir :=
        clim_update_eq_body (clim_body c ir) p ir hg2 hext
      rw [h1, h2, clim_body_idem, ← h1]

/-- The light status decode is idempotent. -/
theorem light_update_idem (l : LytivaLight) (p : JDoc) :
    (l.update_from_payload p).update_from_payload p = l.update_from_payload p := by
  cases hb1 : (l.light_type == "dimmer") with
  | true =>
    cases hv : dimmer_dim_value p with
    | none => simp [LytivaLight.update_from_payload, hb1, hv]
    | some v =>
      cases hn : pyNum v with
      | none => simp [LytivaLight.update_from_payload, hb1, hv, hn]
      | some d => simp [LytivaLight.update_from_payload, hb1, hv, hn]
  | false =>
    cases hb2 : (l.light_type == "cct" && dictHas p "cct") with
    | true =>
      cases hc : jget p "cct" with
      | none => simp [LytivaLight.update_from_payload, hb1, hb2, hc]
      | some w =>
        cases w with
        | s sv => simp [LytivaLight.update_from_payload, hb1, hb2, hc]
        | obj cct =>
          cases hdv : sget cct "dimming" with
          | some dv =>
            cases hnum : pyNumS dv with
            | none => simp [LytivaLight.update_from_payload, hb1, hb2, hc, hdv, hnum]
            | some d =>
              cases hct : sget cct "color_temperature" with
              | none =>
                simp [LytivaLight.update_from_payload, cct_apply_ct, hb1, hb2, hc, hdv, hnum, hct]
              | some cv =>
                cases hc2 : pyNumS cv with
                | none =>
                  simp [LytivaLight.update_from_payload, cct_apply_ct, hb1, hb2, hc, hdv, hnum,
                    hct, hc2]
                | some cn =>
                  simp [LytivaLight.update_from_payload, cct_apply_ct, hb1, hb2, hc, hdv, hnum,
                    hct, hc2]
          | none =>
            cases hct : sget cct "color_temperature" with
            | none => simp [LytivaLight.update_from_payload, cct_apply_ct, hb1, hb2, hc, hdv, hct]
            | some cv =>
              cases hc2 : pyNumS cv with
              | none =>
                simp [LytivaLight.update_from_payload, cct_apply_ct, hb1, hb2, hc, hdv, hct, hc2]
              | some cn =>
                simp [LytivaLight.update_from_payload, cct_apply_ct, hb1, hb2, hc, hdv, hct, hc2]
    | false =>
      cases hb3 : (l.light_type == "rgb" && dictHas p "rgb") with
      | true =>
        cases hr : jget p "rgb" with
        | none => simp [LytivaLight.update_from_payload, hb1, hb2, hb3, hr]
        | some w =>
          cases w with
          | s sv => simp [LytivaLight.update_from_payload, hb1, hb2, hb3, hr]
          | obj rgb => simp [LytivaLight.update_from_payload, hb1, hb2, hb3, hr]
      | false =>
        cases hpw : switch_power_value p with
        | none => simp [LytivaLight.update_from_payload, hb1, hb2, hb3, hpw]
        | some v => simp [LytivaLight.update_from_payload, hb1, hb2, hb3, hpw]

/-- Key membership is definedness of the raw lookup. -/
theorem dictHas_eq_isSome {κ α : Type} [BEq κ] (l : List (κ × α)) (k : κ) :
    dictHas l k = (dictGet l k).isSome := by
  unfold dictHas dictGet
  cases h : l.find? (fun kv => kv.1 == k) <;> simp [h]

/-- A dimmer light ignores a payload that carries no dimming value. -/
theorem light_dimmer_frame (l : LytivaLight) (p : JDoc) (h : l.light_type = "dimmer")
    (hv : dimmer_dim_value p = none) : l.update_from_payload p = l := by
  have hb1 : (l.light_type == "dimmer") = true := by simp [h]
  simp [LytivaLight.update_from_payload, hb1, hv]

/-- A cct light keeps its color temperature when the `cct` sub-document
does not carry one. -/
theorem light_cct_ct_frame (l : LytivaLight) (p : JDoc) (cct : List (String × JScalar))
    (h : l.light_type = "cct") (hc : jget p "cct" = some (JVal.obj cct))
    (hct : sget cct "color_temperature" = none) :
    (l.update_from_payload p).color_temp = l.color_temp := by
  have hb1 : (l.light_type == "dimmer") = false := by simp [h]
  have hhas : dictHas p "cct" = true := by simp [dictHas_eq_isSome, jget] at hc ⊢; simp [hc]
  have hb2 : (l.light_type == "cct" && dictHas p "cct") = true := by simp [h, hhas]
  cases hdv : sget cct "dimming" with
  | none => simp [LytivaLight.update_from_payload, cct_apply_ct, hb1, hb2, hc, hdv, hct]
  | some dv =>
    cases hnum : pyNumS dv <;>
      simp [LytivaLight.update_from_payload, cct_apply_ct, hb1, hb2, hc, hdv, hnum, hct]

/-- A cct light keeps its brightness and on-state when the `cct`
sub-document does not carry a dimming value. -/
theorem light_cct_dim_frame (l : LytivaLight) (p : JDoc) (cct : List (String × JScalar))
    (h : l.light_type = "cct") (hc : jget p "cct" = some (JVal.obj cct))
    (hdv : sget cct "dimming" = none) :
    (l.update_from_payload p).brightness = l.brightness ∧
    (l.update_from_payload p).is_on = l.is_on := by
  have hb1 : (l.light_type == "dimmer") = false := by simp [h]
  have hhas : dictHas p "cct" = true := by simp [dictHas_eq_isSome, jget] at hc ⊢; simp [hc]
  have hb2 : (l.light_type == "cct" && dictHas p "cct") = true := by simp [h, hhas]
  cases hct : sget cct "color_temperature" with
  | none => simp [LytivaLight.update_from_payload, cct_apply_ct, hb1, hb2, hc, hdv, hct]
  | some cv =>
    cases hc2 : pyNumS cv <;>
      simp [LytivaLight.update_from_payload, cct_apply_ct, hb1, hb2, hc, hdv, hct, hc2]

/-- A switch-kind light ignores a payload that carries no power value. -/
theorem light_switch_frame (l : LytivaLight) (p : JDoc) (h : l.light_type = "switch")
    (hpw : switch_power_value p = none) : l.update_from_payload p = l := by
  have hb1 : (l.light_type == "dimmer") = false := by simp [h]
  have hb2 : (l.light_type == "cct" && dictHas p "cct") = false := by rw [h]; rfl
  have hb3 : (l.light_type == "rgb" && dictHas p "rgb") = false := by rw [h]; rfl
  simp [LytivaLight.update_from_payload, hb1, hb2, hb3, hpw]

/-- An address mismatch drops the climate status message. -/
theorem clim_update_drop (c : LytivaClimateEntity) (p : JDoc)
    (hg : (pyGet p "address" != c.address) = true) : c.update_from_status p = c := by
  unfold LytivaClimateEntity.update_from_status
  simp [hg]

/-- Fields the `ir_ac` sub-document does not carry keep their prior
value in the climate shadow, field by field. -/
theorem clim_field_frames (c : LytivaClimateEntity) (p : JDoc) (ir : List (String × JScalar))
    (hext : (match jget p "ir_ac" with
             | some v => v
             | none => JVal.obj []) = JVal.obj ir) :
    (sget ir "power" = none → (c.update_from_status p).preset = c.preset) ∧
    (sget ir "mode" = none → (c.update_from_status p).hvac_mode = c.hvac_mode) ∧
    (sget ir "temperature" = none → (c.update_from_status p).target_temp = c.target_temp) ∧
    (sget ir "current_temperature" = none →
      (c.update_from_status p).current_temp = c.current_temp) ∧
    (sget ir "fan_speed" = none → (c.update_from_status p).fan_mode = c.fan_mode) := by
  by_cases hg : (pyGet p "address" != c.address) = true
  · rw [clim_update_drop c p hg]
    exact ⟨fun _ => rfl, fun _ => rfl, fun _ => rfl, fun _ => rfl, fun _ => rfl⟩
  · have hgf : (pyGet p "address" != c.address) = false := by simpa using hg
    rw [clim_update_eq_body c p ir hgf hext, clim_body_writes]
    refine ⟨fun hf => ?_, fun hf => ?_, fun hf => ?_, fun hf => ?_, fun hf => ?_⟩
    · simp [clim_apply, clim_writes, clim_power_write, hf]
    · simp [clim_apply, clim_writes, clim_mode_write, hf]
    · simp [clim_apply, clim_writes, clim_target_write, hf]
    · simp [clim_apply, clim_writes, clim_curr_write, hf]
    · simp [clim_apply, clim_writes, clim_fan_write, hf]

/-- Appending a binding for `k` makes `k` present. -/
theorem dictHas_append_self {κ α : Type} [BEq κ] [LawfulBEq κ]
    (l : List (κ × α)) (k : κ) (v : α) : dictHas (l ++ [(k, v)]) k = true := by
  induction l with
  | nil => simp only [dictHas, List.nil_append, List.find?]; simp
  | cons kv t ih =>
    unfold dictHas at ih ⊢
    rw [List.cons_append]
    cases hk : kv.1 == k with
    | true => simp only [List.find?, hk, Option.isSome_some]
    | false => simp only [List.find?, hk]; exact ih

/-- Looking up `k` after appending `(k, v)` to a dict without `k`. -/
theorem dictGet_append_of_not_has {κ α : Type} [BEq κ] [LawfulBEq κ]
    (l : List (κ × α)) (k : κ) (v : α) (h : dictHas l k = false) :
    dictGet (l ++ [(k, v)]) k = some v := by
  induction l with
  | nil => simp only [dictGet, List.nil_append, List.find?]; simp
  | cons kv t ih =>
    unfold dictHas at h
    unfold dictGet at ih ⊢
    rw [List.cons_append]
    cases hk : kv.1 == k with
    | true =>
      simp only [List.find?, hk, Option.isSome_some] at h
      simp at h
    | false =>
      simp only [List.find?, hk] at h ⊢
      exact ih h

/-- Looking up `k` after the in-place replacement of its binding. -/
theorem dictGet_replace_of_has {κ α : Type} [BEq κ] [LawfulBEq κ]
    (l : List (κ × α)) (k : κ) (v : α) (h : dictHas l k = true) :
    dictGet (l.map (fun kv => if kv.1 == k then (k, v) else kv)) k = some v := by
  induction l with
  | nil => simp [dictHas, List.find?] at h
  | cons kv t ih =>
    unfold dictHas at h
    unfold dictGet at ih ⊢
    rw [List.map_cons]
    cases hk : kv.1 == k with
    | true =>
      simp only [hk, if_true, List.find?, beq_self_eq_true]
      rfl
    | false =>
      simp only [List.find?, hk] at h
      simp only [hk, Bool.false_eq_true, if_false, List.find?]
      exact ih h

/-- Python dict assignment stores the value under the key. -/
theorem dictGet_dictSet {α : Type} (reg : List (String × α)) (k : String) (v : α) :
    dictGet (dictSet reg k v) k = some v := by
  unfold dictSet
  by_cases h : dictHas reg k = true
  · simp only [h, if_true]
    exact dictGet_replace_of_has reg k v h
  · have hf : dictHas reg k = false := by simpa using h
    simp only [hf, Bool.false_eq_true, if_false]
    exact dictGet_append_of_not_has reg k v hf

/-- A second light-discovery delivery with the same payload is a no-op. -/
theorem on_light_discovery_idem (d : List (JVal × LytivaLight)) (p : JDoc) :
    on_light_discovery (on_light_discovery d p) p = on_light_discovery d p := by
  unfold on_light_discovery
  cases hu : pyGet p "unique_id" with
  | none => simp
  | some uid =>
    by_cases hm : dictHas d (JVal.s (JScalar.jstr (pyStr uid))) = true
    · simp [hm]
    · have hm2 : dictHas d (JVal.s (JScalar.jstr (pyStr uid))) = false := by simpa using hm
      simp [hm2, dictHas_append_self]

/-- A second switch-discovery delivery with the same payload is a no-op. -/
theorem on_switch_discovery_idem (d : List (JVal × LytivaSwitch)) (p : JDoc) :
    on_switch_discovery (on_switch_discovery d p) p = on_switch_discovery d p := by
  unfold on_switch_discovery
  cases hu : pyGet p "unique_id" with
  | none => simp
  | some uid =>
    cases ht : truthy uid with
    | false => simp [ht]
    | true =>
      cases uid with
      | obj o => simp [ht]
      | s sv =>
        by_cases hm : dictHas d (JVal.s sv) = true
        · simp [ht, hm]
        · have hm2 : dictHas d (JVal.s sv) = false := by simpa using hm
          simp [ht, hm2, dictHas_append_self]

/-!
Claim theorems.
-/

/-- C1: for every status message whose payload decodes as a JSON object
(with a hashable address value), the status router resolves the target
shadow by trying, in order and stopping at the first match: (1)
address-index lookup with the native address, (2) address-index lookup
with the stringified address, (3) unique-id-index lookup when the
payload carries a (truthy) unique id, (4) a full scan comparing the
stringified address and unique id against each shadow's attributes; the
entity of the earliest matching step is the one whose update is
scheduled. -/
theorem C1_resolution_cascade {σ : Type} (dir : Directory σ) (p : JDoc)
    (h : address_hashable p = true) :
    handle_status_message dir p =
      pyOrEnt (pyOrEnt (pyOrEnt (step_addr_native dir p) (step_addr_string dir p))
        (step_unique_id dir p)) (step_full_scan dir p) := by
  unfold handle_status_message step_addr_native step_addr_string step_unique_id
    step_full_scan resolve_after_address address_hashable at *
  cases hA : pyGet p "address" with
  | none =>
    simp only [hA]
    cases hU : (if truthyOpt (status_unique_id p) then
        dictGet dir.entities_by_unique_id (pyStrOpt (status_unique_id p)) else none) <;>
      simp [hU, pyOrEnt]
  | some v =>
    cases v with
    | obj o => rw [hA] at h; simp at h
    | s a =>
      simp only [hA]
      cases h1 : dictGet dir.entities_by_address a <;>
        cases h2 : dictGet dir.entities_by_address (JScalar.jstr (pyStrS a)) <;>
        cases hU : (if truthyOpt (status_unique_id p) then
          dictGet dir.entities_by_unique_id (pyStrOpt (status_unique_id p)) else none) <;>
        simp [h1, h2, hU, pyOrEnt]

/-- C1 witness: the cascade instantiated on a one-entity directory and a
concrete status payload whose address hits the native index. -/
theorem C1_resolution_cascade_witness :
    handle_status_message
      (Directory.mk [(JScalar.jint 1, Entity.mk (some (JScalar.jint 1)) (some (JScalar.jstr "u")) (0 : Nat))]
        [("u", Entity.mk (some (JScalar.jint 1)) (some (JScalar.jstr "u")) 0)])
      [("address", JVal.s (JScalar.jint 1))] =
      pyOrEnt (pyOrEnt (pyOrEnt
        (step_addr_native (Directory.mk [(JScalar.jint 1, Entity.mk (some (JScalar.jint 1)) (some (JScalar.jstr "u")) (0 : Nat))]
          [("u", Entity.mk (some (JScalar.jint 1)) (some (JScalar.jstr "u")) 0)]) [("address", JVal.s (JScalar.jint 1))])
        (step_addr_string (Directory.mk [(JScalar.jint 1, Entity.mk (some (JScalar.jint 1)) (some (JScalar.jstr "u")) (0 : Nat))]
          [("u", Entity.mk (some (JScalar.jint 1)) (some (JScalar.jstr "u")) 0)]) [("address", JVal.s (JScalar.jint 1))]))
        (step_unique_id (Directory.mk [(JScalar.jint 1, Entity.mk (some (JScalar.jint 1)) (some (JScalar.jstr "u")) (0 : Nat))]
          [("u", Entity.mk (some (JScalar.jint 1)) (some (JScalar.jstr "u")) 0)]) [("address", JVal.s (JScalar.jint 1))]))
        (step_full_scan (Directory.mk [(JScalar.jint 1, Entity.mk (some (JScalar.jint 1)) (some (JScalar.jstr "u")) (0 : Nat))]
          [("u", Entity.mk (some (JScalar.jint 1)) (some (JScalar.jstr "u")) 0)]) [("address", JVal.s (JScalar.jint 1))]) :=
  C1_resolution_cascade _ _ (by decide)

/-- C2 (amended): the light and switch discovery callbacks are
idempotent — they check the shared `devices` dict and a second delivery
of the same payload constructs and registers nothing — and after one
delivery the id is present in the directory.  (The cover, fan, climate
and scene callbacks construct a new shadow on every invocation; see the
counterexample.) -/
theorem C2_light_switch_discovery_idem :
    (∀ (d : List (JVal × LytivaLight)) (p : JDoc),
      on_light_discovery (on_light_discovery d p) p = on_light_discovery d p) ∧
    (∀ (d : List (JVal × LytivaSwitch)) (p : JDoc),
      on_switch_discovery (on_switch_discovery d p) p = on_switch_discovery d p) ∧
    (∀ (d : List (JVal × LytivaLight)) (p : JDoc) (uid : JVal),
      pyGet p "unique_id" = some uid →
      dictHas (on_light_discovery d p) (JVal.s (JScalar.jstr (pyStr uid))) = true) := by
  refine ⟨on_light_discovery_idem, on_switch_discovery_idem, ?_⟩
  intro d p uid hu
  unfold on_light_discovery
  rw [hu]
  by_cases hm : dictHas d (JVal.s (JScalar.jstr (pyStr uid))) = true
  · simp [hm]
  · have hm2 : dictHas d (JVal.s (JScalar.jstr (pyStr uid))) = false := by simpa using hm
    simp [hm2, dictHas_append_self]

/-- C2 witness: one light-discovery delivery stores the shadow under its
id; repeating either the light or switch delivery changes nothing. -/
theorem C2_light_switch_discovery_idem_witness :
    on_light_discovery (on_light_discovery [] [("unique_id", JVal.s (JScalar.jstr "42"))])
        [("unique_id", JVal.s (JScalar.jstr "42"))] =
      on_light_discovery [] [("unique_id", JVal.s (JScalar.jstr "42"))] ∧
    dictHas (on_light_discovery [] [("unique_id", JVal.s (JScalar.jstr "42"))])
      (JVal.s (JScalar.jstr (pyStr (JVal.s (JScalar.jstr "42"))))) = true :=
  ⟨C2_light_switch_discovery_idem.1 [] [("unique_id", JVal.s (JScalar.jstr "42"))],
   C2_light_switch_discovery_idem.2.2 [] [("unique_id", JVal.s (JScalar.jstr "42"))]
     (JVal.s (JScalar.jstr "42")) (by decide)⟩

/-- C2 counterexample: the cover discovery callback `add_new_cover` has
no duplicate check — delivering the same discovery payload twice
constructs and registers two curtain shadows with the same unique id. -/
theorem C2_cover_discovery_not_idem :
    (add_new_cover (add_new_cover [] [("unique_id", JVal.s (JScalar.jstr "42"))])
        [("unique_id", JVal.s (JScalar.jstr "42"))]).length = 2 ∧
    (add_new_cover (add_new_cover [] [("unique_id", JVal.s (JScalar.jstr "42"))])
        [("unique_id", JVal.s (JScalar.jstr "42"))]).map
      (fun e => e.unique_id) = ["42", "42"] := by
  constructor
  · decide
  · decide

/-- C3 (amended): the discovery registry stores unconditionally — after
any discovery message carrying an id, the registry maps that id to the
payload of that message, overwriting any earlier entry
(last-writer-wins, not first-writer-wins). -/
theorem C3_registry_stores_latest (reg : List (String × JDoc)) (p : JDoc) (uid : JVal)
    (h : discovery_unique_id p = some uid) :
    dictGet (on_discovery reg p) (pyStr uid) = some p := by
  unfold on_discovery
  rw [h]
  exact dictGet_dictSet reg (pyStr uid) p

/-- C3 witness: a concrete discovery payload is stored under its id. -/
theorem C3_registry_stores_latest_witness :
    dictGet (on_discovery [] [("unique_id", JVal.s (JScalar.jstr "42"))])
        (pyStr (JVal.s (JScalar.jstr "42"))) =
      some [("unique_id", JVal.s (JScalar.jstr "42"))] :=
  C3_registry_stores_latest [] [("unique_id", JVal.s (JScalar.jstr "42"))]
    (JVal.s (JScalar.jstr "42")) (by decide)

/-- C3 counterexample: re-delivering id "42" with a different payload
replaces the stored entry — the registry holds the second payload, not
the first (the claim's first-writer-wins fails). -/
theorem C3_rediscovery_overwrites :
    dictGet (on_discovery (on_discovery ([] : List (String × JDoc))
        [("unique_id", JVal.s (JScalar.jstr "42")), ("name", JVal.s (JScalar.jstr "A"))])
        [("unique_id", JVal.s (JScalar.jstr "42")), ("name", JVal.s (JScalar.jstr "B"))]) "42" =
      some [("unique_id", JVal.s (JScalar.jstr "42")), ("name", JVal.s (JScalar.jstr "B"))] ∧
    ([("unique_id", JVal.s (JScalar.jstr "42")), ("name", JVal.s (JScalar.jstr "A"))] : JDoc) ≠
      [("unique_id", JVal.s (JScalar.jstr "42")), ("name", JVal.s (JScalar.jstr "B"))] := by
  constructor
  · decide
  · decide

/-- C4 (amended): a status payload carrying no `address` field skips
both address-index lookups, but is not necessarily dropped — resolution
proceeds with the unique-id lookup and then the fallback scan, and the
message is dropped only when those find no shadow. -/
theorem C4_no_address_skips_address_lookups {σ : Type} (dir : Directory σ) (p : JDoc)
    (h : pyGet p "address" = none) :
    handle_status_message dir p =
      pyOrEnt (step_unique_id dir p) (step_full_scan dir p) := by
  unfold handle_status_message step_unique_id step_full_scan resolve_after_address
  simp only [h]
  cases hU : (if truthyOpt (status_unique_id p) then
      dictGet dir.entities_by_unique_id (pyStrOpt (status_unique_id p)) else none) <;>
    simp [hU, pyOrEnt]

/-- C4 witness: the amended statement at a concrete address-less payload
over an empty directory. -/
theorem C4_no_address_skips_address_lookups_witness :
    handle_status_message (Directory.mk ([] : List (JScalar × Entity Nat)) [])
        [("unique_id", JVal.s (JScalar.jstr "x"))] =
      pyOrEnt (step_unique_id (Directory.mk ([] : List (JScalar × Entity Nat)) [])
          [("unique_id", JVal.s (JScalar.jstr "x"))])
        (step_full_scan (Directory.mk ([] : List (JScalar × Entity Nat)) [])
          [("unique_id", JVal.s (JScalar.jstr "x"))]) :=
  C4_no_address_skips_address_lookups _ _ (by decide)

/-- C4 counterexample: a payload with no `address` field but a known
unique id is routed — the handler schedules the update of the entity
found in the unique-id index instead of dropping the message. -/
theorem C4_unique_id_routes_without_address :
    pyGet [("unique_id", JVal.s (JScalar.jstr "x"))] "address" = none ∧
    handle_status_message
        (Directory.mk [] [("x", Entity.mk none (some (JScalar.jstr "x")) (0 : Nat))])
        [("unique_id", JVal.s (JScalar.jstr "x"))] =
      some (Entity.mk none (some (JScalar.jstr "x")) (0 : Nat)) := by
  constructor
  · rfl
  · decide

/-- C5 (amended): the light and climate status decodes are idempotent
(applying the same message twice yields the same shadow state), and
fields the message's kind sub-document does not carry keep their prior
value — for the dimmer, cct and switch light branches and for every
climate field.  (The rgb branch is the exception: an `rgb` sub-document
overwrites all three channels, defaulting absent ones to 0 — see the
counterexample.) -/
theorem C5_decode_idem_and_frames :
    (∀ (l : LytivaLight) (p : JDoc),
      (l.update_from_payload p).update_from_payload p = l.update_from_payload p) ∧
    (∀ (c : LytivaClimateEntity) (p : JDoc),
      (c.update_from_status p).update_from_status p = c.update_from_status p) ∧
    (∀ (l : LytivaLight) (p : JDoc), l.light_type = "dimmer" → dimmer_dim_value p = none →
      l.update_from_payload p = l) ∧
    (∀ (l : LytivaLight) (p : JDoc) (cct : List (String × JScalar)), l.light_type = "cct" →
      jget p "cct" = some (JVal.obj cct) → sget cct "color_temperature" = none →
      (l.update_from_payload p).color_temp = l.color_temp) ∧
    (∀ (l : LytivaLight) (p : JDoc) (cct : List (String × JScalar)), l.light_type = "cct" →
      jget p "cct" = some (JVal.obj cct) → sget cct "dimming" = none →
      (l.update_from_payload p).brightness = l.brightness ∧
      (l.update_from_payload p).is_on = l.is_on) ∧
    (∀ (l : LytivaLight) (p : JDoc), l.light_type = "switch" → switch_power_value p = none →
      l.update_from_payload p = l) ∧
    (∀ (c : LytivaClimateEntity) (p : JDoc) (ir : List (String × JScalar)),
      (match jget p "ir_ac" with
       | some v => v
       | none => JVal.obj []) = JVal.obj ir →
      (sget ir "power" = none → (c.update_from_status p).preset = c.preset) ∧
      (sget ir "mode" = none → (c.update_from_status p).hvac_mode = c.hvac_mode) ∧
      (sget ir "temperature" = none → (c.update_from_status p).target_temp = c.target_temp) ∧
      (sget ir "current_temperature" = none →
        (c.update_from_status p).current_temp = c.current_temp) ∧
      (sget ir "fan_speed" = none → (c.update_from_status p).fan_mode = c.fan_mode)) :=
  ⟨light_update_idem, clim_update_idem, light_dimmer_frame, light_cct_ct_frame,
   light_cct_dim_frame, light_switch_frame, clim_field_frames⟩

/-- C5 witness: the idempotence and frame statements instantiated on
concrete dimmer, cct and switch lights and a concrete climate shadow,
with every hypothesis discharged. -/
theorem C5_decode_idem_and_frames_witness :
    ((LytivaLight.mk "dimmer" (JScalar.jint 7) 154 370 false 255 154 []).update_from_payload
        [] = LytivaLight.mk "dimmer" (JScalar.jint 7) 154 370 false 255 154 []) ∧
    (((LytivaClimateEntity.mk none ["Vlow"] "off" 24 none "Vlow" "Off" true).update_from_status
          []).update_from_status [] =
      (LytivaClimateEntity.mk none ["Vlow"] "off" 24 none "Vlow" "Off" true).update_from_status []) ∧
    (((LytivaLight.mk "cct" (JScalar.jint 7) 154 370 false 255 154 []).update_from_payload
        [("cct", JVal.obj [])]).color_temp = 154) ∧
    (((LytivaLight.mk "cct" (JScalar.jint 7) 154 370 false 255 154 []).update_from_payload
        [("cct", JVal.obj [])]).brightness = 255) ∧
    ((LytivaLight.mk "switch" (JScalar.jint 7) 154 370 false 255 154 []).update_from_payload
        [] = LytivaLight.mk "switch" (JScalar.jint 7) 154 370 false 255 154 []) ∧
    (((LytivaClimateEntity.mk none ["Vlow"] "off" 24 none "Vlow" "Off" true).update_from_status
        []).preset = "Off") :=
  ⟨C5_decode_idem_and_frames.2.2.1 _ [] rfl (by decide),
   C5_decode_idem_and_frames.2.1 _ [],
   C5_decode_idem_and_frames.2.2.2.1 _ [("cct", JVal.obj [])] [] rfl (by decide) (by decide),
   (C5_decode_idem_and_frames.2.2.2.2.1 _ [("cct", JVal.obj [])] [] rfl (by decide) (by decide)).1,
   C5_decode_idem_and_frames.2.2.2.2.2.1 _ [] rfl (by decide),
   (C5_decode_idem_and_frames.2.2.2.2.2.2 _ [] [] rfl).1 (by decide)⟩

/-- C5 counterexample: for an rgb light, a status whose `rgb`
sub-document carries only "g" still overwrites the channels it does not
carry — the prior triple 255,255,255 becomes 0,5,0 although "r" and "b"
are absent from the sub-document. -/
theorem C5_rgb_overwrites_absent_channels :
    sget [("g", JScalar.jint 5)] "r" = none ∧
    ((LytivaLight.mk "rgb" (JScalar.jint 1) 154 370 true 255 154
        [JScalar.jint 255, JScalar.jint 255, JScalar.jint 255]).update_from_payload
      [("rgb", JVal.obj [("g", JScalar.jint 5)])]).rgb_color =
      [JScalar.jint 0, JScalar.jint 5, JScalar.jint 0] ∧
    [JScalar.jint 0, JScalar.jint 5, JScalar.jint 0] ≠
      [JScalar.jint 255, JScalar.jint 255, JScalar.jint 255] := by
  refine ⟨rfl, by decide, by decide⟩

/-- C6: a dimmer light decodes a carried `dimming` value d in [0,100] to
brightness `int(d * 255 / 100)` (truncation) and is-on `d > 0`, and its
turn-on command for brightness b in [0,255] publishes
`dimming = int(b * 100 / 255)` (truncation). -/
theorem C6_dimmer_mapping :
    (∀ (l : LytivaLight) (d : Int), l.light_type = "dimmer" → 0 ≤ d → d ≤ 100 →
      (l.update_from_payload [("dimmer", JVal.obj [("dimming", JScalar.jint d)])]).brightness =
          Int.tdiv (d * 255) 100 ∧
        (l.update_from_payload [("dimmer", JVal.obj [("dimming", JScalar.jint d)])]).is_on =
          decide (0 < d)) ∧
    (∀ (l : LytivaLight) (b : Int), l.light_type = "dimmer" → 0 ≤ b → b ≤ 255 →
      dictGet (l.turn_on_payload (some b) none none) "dimming" =
        some (JVal.s (JScalar.jint (Int.tdiv (b * 100) 255)))) := by
  constructor
  · intro l d h _ _
    have hb1 : (l.light_type == "dimmer") = true := by simp [h]
    have hv : dimmer_dim_value [("dimmer", JVal.obj [("dimming", JScalar.jint d)])] =
        some (JVal.s (JScalar.jint d)) := by
      simp [dimmer_dim_value, jget, dictGet, dictHas, sget, List.find?]
    constructor <;> simp [LytivaLight.update_from_payload, hb1, hv, pyNum, pyNumS]
  · intro l b h _ _
    have hb1 : (l.light_type == "dimmer") = true := by simp [h]
    simp [LytivaLight.turn_on_payload, hb1, dictGet, List.find?]

/-- C6 witness: dimming 50 decodes to brightness 127 and is-on true;
encoding brightness 255 publishes dimming 100. -/
theorem C6_dimmer_mapping_witness :
    ((LytivaLight.mk "dimmer" (JScalar.jint 42) 154 370 false 255 154 []).update_from_payload
        [("dimmer", JVal.obj [("dimming", JScalar.jint 50)])]).brightness = 127 ∧
    ((LytivaLight.mk "dimmer" (JScalar.jint 42) 154 370 false 255 154 []).update_from_payload
        [("dimmer", JVal.obj [("dimming", JScalar.jint 50)])]).is_on = true ∧
    dictGet ((LytivaLight.mk "dimmer" (JScalar.jint 42) 154 370 false 255 154
        []).turn_on_payload (some 255) none none) "dimming" =
      some (JVal.s (JScalar.jint 100)) :=
  ⟨((C6_dimmer_mapping.1 _ 50 rfl (by decide) (by decide)).1).trans (by decide),
   ((C6_dimmer_mapping.1 _ 50 rfl (by decide) (by decide)).2).trans (by decide),
   (C6_dimmer_mapping.2 _ 255 rfl (by decide) (by decide)).trans (by decide)⟩

/-- C7: a fan decodes a carried `fan_speed` s in 0..5 (with a matching
address) to percentage `min(max(s * 20, 0), 100) = s * 20`; the clamped
banker's rounding `max(0, min(5, round(p / 20)))` maps the percentages
0, 19, 20, 39, 40, 100 to fan speeds 0, 1, 1, 2, 2, 5; and
`async_set_percentage` publishes exactly that clamped rounding as
`fan_speed`. -/
theorem C7_fan_speed_mapping :
    (∀ (f : LytivaFan) (a : JScalar) (s : Int), f.address = some (JVal.s a) → 0 ≤ s → s ≤ 5 →
      (f.on_state [("address", JVal.s a),
          ("fan", JVal.obj [("fan_speed", JScalar.jint s)])]).percentage = some (s * 20)) ∧
    ([0, 19, 20, 39, 40, 100].map (fun pct => max 0 (min 5 (bankersDiv pct 20))) =
      [0, 1, 1, 2, 2, 5]) ∧
    (∀ (f : LytivaFan) (v : JScalar) (a : Int) (pct : Int),
      f.address = some (JVal.s v) → pyIntS v = some a →
      f.set_percentage_payload pct =
        some [("version", JVal.s (JScalar.jstr "v1.0")), ("type", JVal.s (JScalar.jstr "fan")),
          ("address", JVal.s (JScalar.jint a)),
          ("fan_speed", JVal.s (JScalar.jint (max 0 (min 5 (bankersDiv pct 20)))))]) := by
  refine ⟨?_, by decide, ?_⟩
  · intro f a s haddr h0 h5
    have hmm : min (max (s * 20) 0) 100 = s * 20 := by
      rw [max_eq_left (by omega), min_eq_left (by omega)]
    cases a <;>
      simp [LytivaFan.on_state, haddr, pyGet, jget, dictGet, dictHas, sgetD, List.find?, truthy,
        pyStrOpt, pyStr, pyStrS, pyIntS, hmm]
  · intro f v a pct haddr hint
    unfold LytivaFan.set_percentage_payload
    rw [haddr]
    simp [hint]

/-- C7 witness: fan speed 3 decodes to 60 percent, and setting 19
percent publishes fan speed 1. -/
theorem C7_fan_speed_mapping_witness :
    ((LytivaFan.mk (some (JVal.s (JScalar.jint 7))) none true).on_state
        [("address", JVal.s (JScalar.jint 7)),
         ("fan", JVal.obj [("fan_speed", JScalar.jint 3)])]).percentage = some 60 ∧
    (LytivaFan.mk (some (JVal.s (JScalar.jint 7))) none true).set_percentage_payload 19 =
      some [("version", JVal.s (JScalar.jstr "v1.0")), ("type", JVal.s (JScalar.jstr "fan")),
        ("address", JVal.s (JScalar.jint 7)), ("fan_speed", JVal.s (JScalar.jint 1))] :=
  ⟨(C7_fan_speed_mapping.1 _ (JScalar.jint 7) 3 rfl (by decide) (by decide)).trans (by decide),
   (C7_fan_speed_mapping.2.2 _ (JScalar.jint 7) 7 19 rfl rfl).trans (by decide)⟩

/-- C8 (amended): decoding maps a status `fan_speed` i in 0..5 to the
i-th entry (0-based) of the fixed list Vlow, Low, Med, High, Top, Auto;
but encoding maps the chosen fan mode to its position PLUS ONE in the
configured fan-modes list (`fan_index = _fan_modes.index(fan_mode) + 1`,
and the template `mapping` pairs each mode with its 1-based position),
so the encode integer is not the decode integer. -/
theorem C8_fan_mode_decode_encode :
    (∀ (c : LytivaClimateEntity) (p : JDoc) (i : Int) (d0 : String),
      (pyGet p "address" != c.address) = false →
      (match jget p "ir_ac" with
       | some v => v
       | none => JVal.obj []) = JVal.obj [("fan_speed", JScalar.jint i)] →
      c.fan_modes.head? = some d0 → 0 ≤ i → i ≤ 5 →
      (c.update_from_status p).fan_mode = fan_speed_names.getD i.toNat d0) ∧
    (∀ d0 : String, [0, 1, 2, 3, 4, 5].map (fun i => fan_speed_names.getD i d0) =
      fan_speed_names) ∧
    (∀ (modes : List String) (fm : String), modes.contains fm = true →
      climate_fan_index modes fm = some (modes.indexOf fm + 1)) ∧
    (∀ (modes : List String) (i : Nat) (fm : String), modes[i]? = some fm →
      (climate_fan_command_mapping modes)[i]? = some (fm, i + 1)) := by
  refine ⟨?_, fun d0 => rfl, ?_, ?_⟩
  · intro c p i d0 hg hext hfm h0 h5
    rw [clim_update_eq_body c p _ hg hext, clim_body_writes]
    simp [clim_apply, clim_writes, clim_fan_write, clim_target_abort, clim_curr_abort,
      clim_curr_write, sget, dictGet, List.find?, hfm, h0, h5]
  · intro modes fm h
    unfold climate_fan_index
    rw [h]
    simp
  · intro modes i fm h
    unfold climate_fan_command_mapping
    rw [List.getElem?_map]
    simp [List.getElem?_enum, h]

/-- C8 witness: fan speed 2 decodes to "Med"; encoding "Low" against
the default Vlow..Auto list yields device integer 2; the template
mapping pairs "Vlow" with 1. -/
theorem C8_fan_mode_decode_encode_witness :
    ((LytivaClimateEntity.mk none ["Vlow", "Low", "Med", "High", "Top", "Auto"] "off" 24 none
        "Vlow" "Off" true).update_from_status
      [("ir_ac", JVal.obj [("fan_speed", JScalar.jint 2)])]).fan_mode = "Med" ∧
    climate_fan_index ["Vlow", "Low", "Med", "High", "Top", "Auto"] "Low" = some 2 ∧
    (climate_fan_command_mapping ["Vlow", "Low", "Med", "High", "Top", "Auto"])[0]? =
      some ("Vlow", 1) :=
  ⟨(C8_fan_mode_decode_encode.1
      (LytivaClimateEntity.mk none ["Vlow", "Low", "Med", "High", "Top", "Auto"] "off" 24 none
        "Vlow" "Off" true)
      [("ir_ac", JVal.obj [("fan_speed", JScalar.jint 2)])] 2 "Vlow"
      (by decide) (by decide) (by decide) (by decide) (by decide)).trans (by decide),
   (C8_fan_mode_decode_encode.2.2.1 ["Vlow", "Low", "Med", "High", "Top", "Auto"] "Low"
      (by decide)).trans (by decide),
   C8_fan_mode_decode_encode.2.2.2 ["Vlow", "Low", "Med", "High", "Top", "Auto"] 0 "Vlow" rfl⟩

/-- C8 counterexample: the decode of fan speed 0 is "Vlow", whose
position in the fixed list is 0, but the encode integer computed for
"Vlow" is 1 — encode does not map the mode back to its decode integer. -/
theorem C8_fan_index_one_based :
    ((LytivaClimateEntity.mk none ["Vlow", "Low", "Med", "High", "Top", "Auto"] "off" 24 none
        "Auto" "Off" true).update_from_status
      [("ir_ac", JVal.obj [("fan_speed", JScalar.jint 0)])]).fan_mode = "Vlow" ∧
    fan_speed_names.indexOf "Vlow" = 0 ∧
    climate_fan_index fan_speed_names "Vlow" = some 1 ∧
    (1 : Nat) ≠ 0 := by
  refine ⟨by decide, by decide, by decide, by decide⟩

/-- C9: a status message whose address and unique id match no known
shadow under any of the four resolution steps is dropped — the handler
returns without scheduling any update, and the directory (both indices
and every shadow's state) is unchanged. -/
theorem C9_unmatched_status_dropped {σ : Type} [DecidableEq σ] (upd : σ → JDoc → σ)
    (dir : Directory σ) (p : JDoc)
    (h1 : step_addr_native dir p = none) (h2 : step_addr_string dir p = none)
    (h3 : step_unique_id dir p = none) (h4 : step_full_scan dir p = none) :
    handle_status_message dir p = none ∧ apply_status_message upd dir p = dir := by
  have hmain : handle_status_message dir p = none := by
    unfold handle_status_message resolve_after_address
    unfold step_addr_native at h1
    unfold step_addr_string at h2
    unfold step_unique_id at h3
    unfold step_full_scan at h4
    cases hA : pyGet p "address" with
    | none =>
      rw [hA] at h4
      simp only at h3
      simp only [hA]
      simp [h3, h4]
    | some v =>
      cases v with
      | obj o => simp [hA]
      | s a =>
        rw [hA] at h1 h2 h4
        simp only at h1 h2 h3
        simp only [hA]
        simp [h1, h2, pyOrEnt, h3, h4]
  refine ⟨hmain, ?_⟩
  unfold apply_status_message
  rw [hmain]

/-- C9 witness: a status with unknown address 2 over a one-entity
directory is dropped and the directory is unchanged, for a state-bumping
update function. -/
theorem C9_unmatched_status_dropped_witness :
    handle_status_message
        (Directory.mk [(JScalar.jint 1, Entity.mk (some (JScalar.jint 1)) (some (JScalar.jstr "u")) (0 : Nat))]
          [("u", Entity.mk (some (JScalar.jint 1)) (some (JScalar.jstr "u")) 0)])
        [("address", JVal.s (JScalar.jint 2))] = none ∧
    apply_status_message (fun st _ => st + 1)
        (Directory.mk [(JScalar.jint 1, Entity.mk (some (JScalar.jint 1)) (some (JScalar.jstr "u")) (0 : Nat))]
          [("u", Entity.mk (some (JScalar.jint 1)) (some (JScalar.jstr "u")) 0)])
        [("address", JVal.s (JScalar.jint 2))] =
      Directory.mk [(JScalar.jint 1, Entity.mk (some (JScalar.jint 1)) (some (JScalar.jstr "u")) (0 : Nat))]
        [("u", Entity.mk (some (JScalar.jint 1)) (some (JScalar.jstr "u")) 0)] :=
  C9_unmatched_status_dropped (fun st _ => st + 1) _ _ (by decide) (by decide) (by decide)
    (by decide)

/-- C10: if the rendered value of a switch state message — the template
output when a template is configured and rendering succeeds, else the
raw payload — stripped of surrounding whitespace, equals neither the
configured `state_on` nor `state_off`, the message changes nothing. -/
theorem C10_switch_unknown_value_frame (sw : LytivaSwitch) (template_result : Option String)
    (payload : String)
    (h1 : pyEqStr (pyStrip (sw.rendered_value template_result payload)) sw.state_on = false)
    (h2 : pyEqStr (pyStrip (sw.rendered_value template_result payload)) sw.state_off = false) :
    sw.on_state_message template_result payload = sw := by
  unfold LytivaSwitch.on_state_message
  simp [h1, h2]

/-- C10 witness: the payload "weird" on a default-configured switch
(state_on "ON", state_off "OFF") leaves the shadow unchanged. -/
theorem C10_switch_unknown_value_frame_witness :
    (LytivaSwitch.mk "lytiva_7" false none (some (JVal.s (JScalar.jstr "ON")))
        (some (JVal.s (JScalar.jstr "OFF")))).on_state_message none "weird" =
      LytivaSwitch.mk "lytiva_7" false none (some (JVal.s (JScalar.jstr "ON")))
        (some (JVal.s (JScalar.jstr "OFF"))) :=
  C10_switch_unknown_value_frame _ none "weird" (by decide) (by decide)
